import Mathlib

/-!
Verification of the data-modeling-with-cassandra ETL pipeline.

The pipeline (notebook `project.ipynb`, second revision of the cells, and the
README listing) has three phases:

1. Extract: merge the per-day event CSV files into `event_datafile_new.csv`,
   keeping only rows with a non-empty artist field and projecting each kept
   row to 11 of its 17+ fields.
2. Transform/load: create three Cassandra tables (`artist_song_session`,
   `song_playlist_session`, `user_song`; the earlier revision uses
   `question_1` .. `question_3`) and insert one row per record of the flat
   file into each.
3. Query: three fixed `SELECT` statements, printed with a formatting helper.

Rows are embedded as lists of strings (Python `csv` rows); partial indexing
`row[i]` and fallible `int()` / `float()` conversions are embedded in the
`Option` monad.  A Cassandra table is embedded as a list of typed rows kept
sorted by primary key (partition key columns first, then clustering columns,
mirroring the on-disk clustering order); `INSERT` is an upsert on the primary
key, and `SELECT ... WHERE <full partition key> = c` reads the partition in
clustering order.
-/

namespace DataModelingCassandra

/-! ## Python value models -/

/-- Value of a digit string, most significant first. -/
def digitsToNat (l : List Char) : Nat :=
  l.foldl (fun n c => n * 10 + (c.toNat - 48)) 0

/-- Model of Python `int(s)` on the event data: an optional sign followed by
one or more digits (the whitespace and underscore forms `int` also accepts do
not occur in the data). -/
def pyInt (s : String) : Option Int :=
  match s.toList with
  | '-' :: t =>
    if !t.isEmpty && t.all (fun c => c.isDigit) then
      some (-(digitsToNat t : Int))
    else none
  | '+' :: t =>
    if !t.isEmpty && t.all (fun c => c.isDigit) then
      some (digitsToNat t : Int)
    else none
  | t =>
    if !t.isEmpty && t.all (fun c => c.isDigit) then
      some (digitsToNat t : Int)
    else none

/-- Checks the shapes of decimal literals accepted by Python `float(s)` that
can occur in the `length` field: optional sign, digits with an optional
decimal point (no exponent forms, which the event data does not use). -/
def isFloatLit (s : String) : Bool :=
  let cs : List Char :=
    match s.toList with
    | '-' :: t => t
    | '+' :: t => t
    | t => t
  let ip := cs.takeWhile (fun c => c.isDigit)
  let rest := cs.dropWhile (fun c => c.isDigit)
  match rest with
  | [] => !ip.isEmpty
  | '.' :: fp => (!ip.isEmpty || !fp.isEmpty) && fp.all (fun c => c.isDigit)
  | _ => false

/-- A Python float as stored and returned by the pipeline.  The pipeline never
computes with the value (it is parsed from the flat file, stored, selected and
printed), so it is kept as its source text. -/
structure PyFloat where
  lit : String
  deriving DecidableEq, Repr

/-- Model of Python `float(s)` on the event data. -/
def pyFloat (s : String) : Option PyFloat :=
  if isFloatLit s then some ⟨s⟩ else none

/-! ## Extract phase

Source (extract cell): after concatenating all event files into
`full_data_rows_list`, the cell writes a header row and then, for each row,
skips it when `row[0] == ''` and otherwise writes the projection
`(row[0], row[2], row[3], row[4], row[5], row[6], row[7], row[8], row[12],
row[13], row[16])`. -/

/-- The fixed header row written first to `event_datafile_new.csv`. -/
def csvHeader : List String :=
  ["artist", "firstName", "gender", "itemInSession", "lastName", "length",
   "level", "location", "sessionId", "song", "userId"]

/-- The tuple passed to `writer.writerow` for one kept row; Python `row[i]`
raises on a short row, hence `Option`. -/
def projectRow (row : List String) : Option (List String) := do
  let f0 ← row[0]?
  let f2 ← row[2]?
  let f3 ← row[3]?
  let f4 ← row[4]?
  let f5 ← row[5]?
  let f6 ← row[6]?
  let f7 ← row[7]?
  let f8 ← row[8]?
  let f12 ← row[12]?
  let f13 ← row[13]?
  let f16 ← row[16]?
  pure [f0, f2, f3, f4, f5, f6, f7, f8, f12, f13, f16]

/-- The write loop over `full_data_rows_list`: skip a row when its field 0 is
the empty string (`continue`), otherwise write its projection. -/
def writeRows : List (List String) → Option (List (List String))
  | [] => some []
  | row :: rest => do
    let f0 ← row[0]?
    if f0 = "" then
      writeRows rest
    else do
      let proj ← projectRow row
      let tail ← writeRows rest
      pure (proj :: tail)

/-- The full contents of `event_datafile_new.csv`: the header row followed by
the rows written by the loop. -/
def newDatafile (full_data_rows_list : List (List String)) :
    Option (List (List String)) :=
  (writeRows full_data_rows_list).map (fun rs => csvHeader :: rs)

/-- Total projection by `getD`, used to state the filter-and-project
characterization of the extract phase. -/
def projectRowD (row : List String) : List String :=
  [row.getD 0 "", row.getD 2 "", row.getD 3 "", row.getD 4 "", row.getD 5 "",
   row.getD 6 "", row.getD 7 "", row.getD 8 "", row.getD 12 "", row.getD 13 "",
   row.getD 16 ""]

lemma projectRow_of_long {row : List String} (h : 17 ≤ row.length) :
    projectRow row = some (projectRowD row) := by
  simp only [projectRow, projectRowD]
  have h0 : 0 < row.length := by omega
  have h2 : 2 < row.length := by omega
  have h3 : 3 < row.length := by omega
  have h4 : 4 < row.length := by omega
  have h5 : 5 < row.length := by omega
  have h6 : 6 < row.length := by omega
  have h7 : 7 < row.length := by omega
  have h8 : 8 < row.length := by omega
  have h12 : 12 < row.length := by omega
  have h13 : 13 < row.length := by omega
  have h16 : 16 < row.length := by omega
  simp [List.getElem?_eq_getElem, List.getD_eq_getElem?_getD,
    h0, h2, h3, h4, h5, h6, h7, h8, h12, h13, h16]

/-! ## Records of the three tables

Column layout and types follow the `CREATE TABLE` statements of the second
revision; `question_2` of the first revision has the same seven columns. -/

/-- One row of `artist_song_session` (and of `question_1`). -/
structure ArtistSongSessionRow where
  session_id : Int
  item_in_session : Int
  artist : String
  song : String
  length : PyFloat
  deriving DecidableEq, Repr

/-- One row of `song_playlist_session` (and of `question_2`). -/
structure SongPlaylistSessionRow where
  user_id : Int
  session_id : Int
  item_in_session : Int
  artist : String
  song : String
  first_name : String
  last_name : String
  deriving DecidableEq, Repr

/-- One row of `user_song` (and of `question_3`). -/
structure UserSongRow where
  song : String
  user_id : Int
  first_name : String
  last_name : String
  deriving DecidableEq, Repr

/-- Parameter tuple of one `artist_song_session` INSERT:
`(int(line[8]), int(line[3]), line[0], line[9], float(line[5]))`. -/
def parseArtistSongSession (row : List String) : Option ArtistSongSessionRow := do
  let s8 ← row[8]?
  let sid ← pyInt s8
  let s3 ← row[3]?
  let iis ← pyInt s3
  let ar ← row[0]?
  let so ← row[9]?
  let s5 ← row[5]?
  let le ← pyFloat s5
  pure { session_id := sid, item_in_session := iis, artist := ar, song := so,
         length := le }

/-- Parameter tuple of one `song_playlist_session` INSERT:
`(int(line[10]), int(line[8]), int(line[3]), line[0], line[9], line[1],
line[4])`. -/
def parseSongPlaylistSession (row : List String) :
    Option SongPlaylistSessionRow := do
  let s10 ← row[10]?
  let uid ← pyInt s10
  let s8 ← row[8]?
  let sid ← pyInt s8
  let s3 ← row[3]?
  let iis ← pyInt s3
  let ar ← row[0]?
  let so ← row[9]?
  let fn ← row[1]?
  let ln ← row[4]?
  pure { user_id := uid, session_id := sid, item_in_session := iis,
         artist := ar, song := so, first_name := fn, last_name := ln }

/-- Parameter tuple of one `question_2` INSERT (first revision), in its source
order: `(line[0], line[9], int(line[8]), int(line[3]), int(line[10]), line[1],
line[4])`, filling the same seven columns. -/
def parseQuestion2 (row : List String) : Option SongPlaylistSessionRow := do
  let ar ← row[0]?
  let so ← row[9]?
  let s8 ← row[8]?
  let sid ← pyInt s8
  let s3 ← row[3]?
  let iis ← pyInt s3
  let s10 ← row[10]?
  let uid ← pyInt s10
  let fn ← row[1]?
  let ln ← row[4]?
  pure { user_id := uid, session_id := sid, item_in_session := iis,
         artist := ar, song := so, first_name := fn, last_name := ln }

/-- Parameter tuple of one `user_song` INSERT:
`(line[9], int(line[10]), line[1], line[4])`. -/
def parseUserSong (row : List String) : Option UserSongRow := do
  let so ← row[9]?
  let s10 ← row[10]?
  let uid ← pyInt s10
  let fn ← row[1]?
  let ln ← row[4]?
  pure { song := so, user_id := uid, first_name := fn, last_name := ln }

/-- The row-by-row insert loop over the flat file: `next(csvreader)` drops the
header line (raising on an empty file), then the loop issues one synchronous
`session.execute` per remaining record.  The result is the sequence of
parameter tuples of the executed INSERTs, in file order; a conversion failure
aborts the loop. -/
def insertLoopCalls (parse : List String → Option ρ) :
    List (List String) → Option (List ρ)
  | [] => none
  | _header :: records => records.mapM parse

/-! ## Cassandra table semantics

A table is the list of its rows kept sorted by primary key, strictly
increasing (a Cassandra primary key identifies at most one row).  `INSERT` is
an upsert on the primary key. -/

section TableModel

variable {ρ κ : Type} [LinearOrder κ] (key : ρ → κ)

/-- Cassandra `INSERT`: place the row at its primary-key position, replacing
any existing row with the same primary key. -/
def upsert (r : ρ) : List ρ → List ρ
  | [] => [r]
  | x :: xs =>
    if key r < key x then r :: x :: xs
    else if key r = key x then r :: xs
    else x :: upsert r xs

/-- Effect of an insert loop on a table state: upserts applied in file order. -/
def loadRows (t : List ρ) (rs : List ρ) : List ρ :=
  rs.foldl (fun acc r => upsert key r acc) t

/-- The table invariant: rows strictly increasing in primary key. -/
def SortedT (t : List ρ) : Prop :=
  t.Pairwise (fun a b => key a < key b)

/-- The stored row with primary key `k`, if any. -/
def findKey (k : κ) (t : List ρ) : Option ρ :=
  t.find? (fun x => decide (key x = k))

/-- The last record with primary key `k` in an insert sequence. -/
def lastKeyed (k : κ) (rs : List ρ) : Option ρ :=
  (rs.filter (fun x => decide (key x = k))).getLast?

lemma mem_upsert_elim {r y : ρ} {t : List ρ} (h : y ∈ upsert key r t) :
    y = r ∨ y ∈ t := by
  induction t with
  | nil => simpa [upsert] using h
  | cons x xs ih =>
    by_cases h1 : key r < key x
    · simp only [upsert, if_pos h1, List.mem_cons] at h
      simp only [List.mem_cons]
      tauto
    · by_cases h2 : key r = key x
      · simp only [upsert, if_neg h1, if_pos h2, List.mem_cons] at h
        simp only [List.mem_cons]
        tauto
      · simp only [upsert, if_neg h1, if_neg h2, List.mem_cons] at h
        rcases h with h | h
        · exact Or.inr (by simp [h])
        · rcases ih h with h | h
          · exact Or.inl h
          · exact Or.inr (List.mem_cons_of_mem _ h)

lemma sortedT_upsert {t : List ρ} (r : ρ) (h : SortedT key t) :
    SortedT key (upsert key r t) := by
  induction t with
  | nil => simp [SortedT, upsert]
  | cons x xs ih =>
    rw [SortedT, List.pairwise_cons] at h
    obtain ⟨hx, hxs⟩ := h
    by_cases h1 : key r < key x
    · rw [SortedT, upsert, if_pos h1, List.pairwise_cons]
      refine ⟨?_, ?_⟩
      · intro y hy
        rcases List.mem_cons.mp hy with rfl | hy
        · exact h1
        · exact lt_trans h1 (hx y hy)
      · rw [List.pairwise_cons]
        exact ⟨hx, hxs⟩
    · by_cases h2 : key r = key x
      · rw [SortedT, upsert, if_neg h1, if_pos h2, List.pairwise_cons]
        refine ⟨fun y hy => h2 ▸ hx y hy, hxs⟩
      · have h3 : key x < key r := by
          rcases lt_trichotomy (key r) (key x) with h | h | h
          · exact absurd h h1
          · exact absurd h h2
          · exact h
        rw [SortedT, upsert, if_neg h1, if_neg h2, List.pairwise_cons]
        refine ⟨?_, ih hxs⟩
        intro y hy
        rcases mem_upsert_elim key hy with rfl | hy
        · exact h3
        · exact hx y hy

lemma sortedT_loadRows {t : List ρ} (rs : List ρ) (h : SortedT key t) :
    SortedT key (loadRows key t rs) := by
  induction rs generalizing t with
  | nil => simpa [loadRows] using h
  | cons r rs ih => exact ih (sortedT_upsert key r h)

lemma sortedT_nil : SortedT key ([] : List ρ) := by
  simp [SortedT]

lemma findKey_nil (k : κ) : findKey key k ([] : List ρ) = none := rfl

lemma findKey_cons (k : κ) (x : ρ) (xs : List ρ) :
    findKey key k (x :: xs) = if key x = k then some x else findKey key k xs := by
  by_cases h : key x = k
  · rw [if_pos h, findKey, List.find?_cons_of_pos _ (by simp [h])]
  · rw [if_neg h, findKey, List.find?_cons_of_neg _ (by simp [h])]
    rfl

lemma findKey_upsert (r : ρ) (k : κ) (t : List ρ) :
    findKey key k (upsert key r t) =
      if key r = k then some r else findKey key k t := by
  induction t with
  | nil =>
    rw [show upsert key r [] = [r] from rfl, findKey_cons, findKey_nil]
  | cons x xs ih =>
    by_cases h1 : key r < key x
    · rw [show upsert key r (x :: xs) = r :: x :: xs from by
        simp [upsert, if_pos h1]]
      rw [findKey_cons]
    · by_cases h2 : key r = key x
      · rw [show upsert key r (x :: xs) = r :: xs from by
          simp [upsert, if_neg h1, if_pos h2]]
        rw [findKey_cons, findKey_cons]
        by_cases hr : key r = k
        · rw [if_pos hr, if_pos hr]
        · have hx : ¬ key x = k := fun h => hr (h2 ▸ h)
          rw [if_neg hr, if_neg hr, if_neg hx]
      · have h3 : key x < key r := by
          rcases lt_trichotomy (key r) (key x) with h | h | h
          · exact absurd h h1
          · exact absurd h h2
          · exact h
        rw [show upsert key r (x :: xs) = x :: upsert key r xs from by
          simp [upsert, if_neg h1, if_neg h2]]
        rw [findKey_cons, ih, findKey_cons]
        by_cases hx : key x = k
        · have hr : ¬ key r = k := fun h => h2 (by rw [h, hx])
          rw [if_pos hx, if_neg hr, if_pos hx]
        · rw [if_neg hx, if_neg hx]

lemma getLast?_cons_orElse (a : ρ) (l : List ρ) :
    (a :: l).getLast? = (l.getLast? <|> some a) := by
  induction l generalizing a with
  | nil => simp
  | cons b l ih =>
    rw [List.getLast?_cons_cons, ih b]
    cases l.getLast? <;> simp

lemma lastKeyed_cons (k : κ) (r : ρ) (rs : List ρ) :
    lastKeyed key k (r :: rs) =
      (lastKeyed key k rs <|> if key r = k then some r else none) := by
  by_cases h : key r = k
  · rw [if_pos h, lastKeyed, List.filter_cons_of_pos (by simp [h]),
      getLast?_cons_orElse]
    rfl
  · rw [if_neg h, lastKeyed, List.filter_cons_of_neg (by simp [h])]
    show lastKeyed key k rs = _
    cases lastKeyed key k rs <;> rfl

lemma findKey_loadRows (k : κ) (t : List ρ) (rs : List ρ) :
    findKey key k (loadRows key t rs) =
      (lastKeyed key k rs <|> findKey key k t) := by
  induction rs generalizing t with
  | nil =>
    show findKey key k t = (lastKeyed key k [] <|> findKey key k t)
    cases hf : findKey key k t <;> rfl
  | cons r rs ih =>
    rw [show loadRows key t (r :: rs) = loadRows key (upsert key r t) rs from rfl,
      ih, findKey_upsert, lastKeyed_cons]
    by_cases hk : key r = k
    · rw [if_pos hk, if_pos hk]
      cases lastKeyed key k rs <;> rfl
    · rw [if_neg hk, if_neg hk]
      cases lastKeyed key k rs <;> rfl

lemma mem_imp_findKey :
    ∀ {t : List ρ}, SortedT key t → ∀ {r : ρ}, r ∈ t →
      findKey key (key r) t = some r := by
  intro t
  induction t with
  | nil => intro _ r hr; cases hr
  | cons x xs ih =>
    intro h r hr
    rw [SortedT, List.pairwise_cons] at h
    rw [findKey_cons]
    rcases List.mem_cons.mp hr with rfl | hr
    · rw [if_pos rfl]
    · rw [if_neg (ne_of_lt (h.1 r hr))]
      exact ih h.2 hr

lemma mem_iff_findKey {t : List ρ} (h : SortedT key t) (r : ρ) :
    r ∈ t ↔ findKey key (key r) t = some r :=
  ⟨fun hr => mem_imp_findKey key h hr, fun hf => List.mem_of_find?_eq_some hf⟩

/-- Two lists that are strictly sorted under the same measure and have the
same members are equal. -/
lemma sorted_mem_ext {κ' : Type} [LinearOrder κ'] (f : ρ → κ') :
    ∀ {A B : List ρ}, A.Pairwise (fun a b => f a < f b) →
      B.Pairwise (fun a b => f a < f b) → (∀ x, x ∈ A ↔ x ∈ B) → A = B := by
  intro A
  induction A with
  | nil =>
    intro B _ _ hmem
    cases B with
    | nil => rfl
    | cons b B => exact absurd ((hmem b).mpr (List.mem_cons_self b B)) (by simp)
  | cons a A ih =>
    intro B hA hB hmem
    cases B with
    | nil => exact absurd ((hmem a).mp (List.mem_cons_self a A)) (by simp)
    | cons b B =>
      rw [List.pairwise_cons] at hA hB
      have hab : a = b := by
        rcases List.mem_cons.mp ((hmem a).mp (List.mem_cons_self a A)) with h | hA' 
        · exact h
        · rcases List.mem_cons.mp ((hmem b).mpr (List.mem_cons_self b B)) with h | hB' 
          · exact h.symm
          · exact absurd (hA.1 b hB') (not_lt_of_lt (hB.1 a hA'))
      subst hab
      have htail : ∀ x, x ∈ A ↔ x ∈ B := by
        intro x
        constructor
        · intro hx
          rcases List.mem_cons.mp ((hmem x).mp (List.mem_cons_of_mem a hx)) with rfl | h
          · exact absurd (hA.1 x hx) (lt_irrefl (f x))
          · exact h
        · intro hx
          rcases List.mem_cons.mp ((hmem x).mpr (List.mem_cons_of_mem a hx)) with rfl | h
          · exact absurd (hB.1 x hx) (lt_irrefl (f x))
          · exact h
      rw [ih hA.2 hB.2 htail]

/-- Reloading the same record sequence leaves a freshly loaded table
unchanged: each record overwrites the row its key already holds, and the last
record for each key wins both times. -/
lemma loadRows_idem (rs : List ρ) :
    loadRows key (loadRows key [] rs) rs = loadRows key [] rs := by
  have hB : SortedT key (loadRows key [] rs) :=
    sortedT_loadRows key rs (sortedT_nil key)
  have hA : SortedT key (loadRows key (loadRows key [] rs) rs) :=
    sortedT_loadRows key rs hB
  refine sorted_mem_ext key hA hB ?_
  intro x
  rw [mem_iff_findKey key hA, mem_iff_findKey key hB, findKey_loadRows,
    findKey_loadRows, findKey_nil]
  cases lastKeyed key (key x) rs <;> rfl

end TableModel

/-! ## Primary keys of the tables

`PRIMARY KEY (a, b)` means partition key `a`, clustering column `b`;
`PRIMARY KEY ((a, b), c)` means composite partition key `(a, b)`, clustering
column `c`.  Rows are ordered by partition key first, then clustering columns,
lexicographically. -/

/-- Primary key of `artist_song_session` (and `question_1`):
`PRIMARY KEY (session_id, item_in_session)`. -/
def keyArtistSongSession (r : ArtistSongSessionRow) : Int ×ₗ Int :=
  toLex (r.session_id, r.item_in_session)

/-- Primary key of `song_playlist_session`:
`PRIMARY KEY ((user_id, session_id), item_in_session)`. -/
def keySongPlaylistSession (r : SongPlaylistSessionRow) : (Int ×ₗ Int) ×ₗ Int :=
  toLex (toLex (r.user_id, r.session_id), r.item_in_session)

/-- Primary key of `question_2` (first revision):
`PRIMARY KEY (user_id, session_id, item_in_session)` — partition key
`user_id`, clustering columns `session_id, item_in_session`. -/
def keyQuestion2 (r : SongPlaylistSessionRow) : Int ×ₗ (Int ×ₗ Int) :=
  toLex (r.user_id, toLex (r.session_id, r.item_in_session))

/-- Primary key of `user_song` (and `question_3`):
`PRIMARY KEY (song, user_id)`. -/
def keyUserSong (r : UserSongRow) : String ×ₗ Int :=
  toLex (r.song, r.user_id)

/-- Table state of `artist_song_session` after its insert loop over the flat
file (starting from the freshly created empty table). -/
def tableArtistSongSession (file : List (List String)) :
    Option (List ArtistSongSessionRow) :=
  (insertLoopCalls parseArtistSongSession file).map
    (loadRows keyArtistSongSession [])

/-- Table state of `song_playlist_session` after its insert loop. -/
def tableSongPlaylistSession (file : List (List String)) :
    Option (List SongPlaylistSessionRow) :=
  (insertLoopCalls parseSongPlaylistSession file).map
    (loadRows keySongPlaylistSession [])

/-- Table state of `question_2` (first revision) after its insert loop. -/
def tableQuestion2 (file : List (List String)) :
    Option (List SongPlaylistSessionRow) :=
  (insertLoopCalls parseQuestion2 file).map (loadRows keyQuestion2 [])

/-- Table state of `user_song` after its insert loop. -/
def tableUserSong (file : List (List String)) : Option (List UserSongRow) :=
  (insertLoopCalls parseUserSong file).map (loadRows keyUserSong [])

/-! ## The three queries

Each query fixes the full partition key of its table, so Cassandra returns the
matching rows in clustering order — in this model, the stored (sorted) order.
The projections are the tuples handed to the printing helper
(`data.add_row([...])`). -/

/-- Query 1: `SELECT artist, song, length FROM artist_song_session WHERE
session_id=338 and item_in_session=4`. -/
def selectQuery1 (t : List ArtistSongSessionRow) :
    List (String × String × PyFloat) :=
  (t.filter (fun r => r.session_id == 338 && r.item_in_session == 4)).map
    (fun r => (r.artist, r.song, r.length))

/-- Query 2: `SELECT item_in_session, artist, song, first_name, last_name
FROM song_playlist_session WHERE user_id=10 and session_id=182`, printed as
`[artist, song, item_in_session, first_name, last_name]`. -/
def selectQuery2 (t : List SongPlaylistSessionRow) :
    List (String × String × Int × String × String) :=
  (t.filter (fun r => r.user_id == 10 && r.session_id == 182)).map
    (fun r => (r.artist, r.song, r.item_in_session, r.first_name, r.last_name))

/-- First-revision query 2: `SELECT * FROM question_2 WHERE user_id=10 and
session_id=182`, printed as artist, song, item_in_session, first and last
name. -/
def selectQuestion2 (t : List SongPlaylistSessionRow) :
    List (String × String × Int × String × String) :=
  (t.filter (fun r => r.user_id == 10 && r.session_id == 182)).map
    (fun r => (r.artist, r.song, r.item_in_session, r.first_name, r.last_name))

/-- Query 3: `SELECT first_name, last_name FROM user_song WHERE song=\x27All
Hands Against His Own\x27`. -/
def selectQuery3 (t : List UserSongRow) : List (String × String) :=
  (t.filter (fun r => r.song == "All Hands Against His Own")).map
    (fun r => (r.first_name, r.last_name))

/-! ## DDL of the transform phase

The transform phase builds each `CREATE TABLE` statement as a Python string
in two concatenated pieces (a backslash-newline inside the second literal
continues the string with nothing inserted) and executes it. -/

/-- The `artist_song_session` DDL string, assembled as in the source
(`query = ...` then `query += ...`). -/
def ddlArtistSongSession : String :=
  "CREATE TABLE IF NOT EXISTS artist_song_session " ++
  "(session_id int, item_in_session int, artist text, song text, length double, PRIMARY KEY (session_id, item_in_session))"

/-- The `song_playlist_session` DDL string, assembled as in the source. -/
def ddlSongPlaylistSession : String :=
  "CREATE TABLE IF NOT EXISTS song_playlist_session " ++
  "(user_id int, session_id int, item_in_session int, artist text, song text, first_name text, last_name text, PRIMARY KEY ((user_id, session_id), item_in_session))"

/-- The `user_song` DDL string, assembled as in the source. -/
def ddlUserSong : String :=
  "CREATE TABLE IF NOT EXISTS user_song " ++
  "(song text, user_id int, first_name text, last_name text, PRIMARY KEY (song, user_id))"

/-- The `CREATE TABLE` statements the transform phase executes, in order. -/
def createTableStatements : List String :=
  [ddlArtistSongSession, ddlSongPlaylistSession, ddlUserSong]

/-- A table shape: name, columns with their CQL types, partition-key columns
and clustering-key columns. -/
structure TableSchema where
  name : String
  columns : List (String × String)
  partitionKey : List String
  clusteringKey : List String
  deriving DecidableEq, Repr

/-- CQL rendering of a table shape: columns, then the PRIMARY KEY clause with
a composite partition key parenthesized. -/
def renderCreateTable (s : TableSchema) : String :=
  let pk : String :=
    match s.partitionKey with
    | [c] => c
    | cs => "(" ++ String.intercalate ", " cs ++ ")"
  "CREATE TABLE IF NOT EXISTS " ++ s.name ++ " (" ++
    String.intercalate ", " (s.columns.map (fun c => c.1 ++ " " ++ c.2)) ++
    ", PRIMARY KEY (" ++ String.intercalate ", " (pk :: s.clusteringKey) ++
    "))"

/-- The table shape the claim lists for `artist_song_session`. -/
def artistSongSessionSchema : TableSchema :=
  { name := "artist_song_session"
    columns := [("session_id", "int"), ("item_in_session", "int"),
                ("artist", "text"), ("song", "text"), ("length", "double")]
    partitionKey := ["session_id"]
    clusteringKey := ["item_in_session"] }

/-- The table shape the claim lists for `song_playlist_session`. -/
def songPlaylistSessionSchema : TableSchema :=
  { name := "song_playlist_session"
    columns := [("user_id", "int"), ("session_id", "int"),
                ("item_in_session", "int"), ("artist", "text"),
                ("song", "text"), ("first_name", "text"),
                ("last_name", "text")]
    partitionKey := ["user_id", "session_id"]
    clusteringKey := ["item_in_session"] }

/-- The table shape the claim lists for `user_song`. -/
def userSongSchema : TableSchema :=
  { name := "user_song"
    columns := [("song", "text"), ("user_id", "int"),
                ("first_name", "text"), ("last_name", "text")]
    partitionKey := ["song"]
    clusteringKey := ["user_id"] }

/-! ## The query-phase execute calls

`session.execute` is called with the query string alone; a parameter tuple is
present only in the insert loops. -/

/-- One call to `session.execute`: the statement text and the bound-parameter
tuple (as the client would serialize it). -/
structure ExecCall where
  query : String
  params : List String
  deriving DecidableEq, Repr

/-- The query 1 execute call: the WHERE values 338 and 4 are part of the
statement text and no parameter tuple is passed. -/
def selectCall1 : ExecCall :=
  { query := "SELECT artist, song, length FROM artist_song_session WHERE session_id=338 and item_in_session=4"
    params := [] }

/-- The query 2 execute call (the backslash-newline in the source continues
the string literal). -/
def selectCall2 : ExecCall :=
  { query := "SELECT item_in_session, artist, song, first_name, last_name FROM song_playlist_session WHERE user_id=10 and session_id=182"
    params := [] }

/-- The query 3 execute call; the song title is quoted inline in the text. -/
def selectCall3 : ExecCall :=
  { query := "SELECT first_name, last_name FROM user_song WHERE song=\x27All Hands Against His Own\x27"
    params := [] }

/-- A WHERE comparison value is parameter-bound in a call when it is passed in
the parameter tuple of the call. -/
def paramBound (c : ExecCall) (vals : List String) : Prop :=
  ∀ v ∈ vals, v ∈ c.params

/-! ## Resource handling

The pipeline is sequential; its file and connection handling, in source
order: each event CSV is read inside its own `with open(...)` block, the flat
file is written inside a `with` block, a counting cell re-reads it, then
`cluster.connect()` opens the single connection, each of the three insert
loops re-opens the flat file for the duration of its inserts, and
`session.shutdown()` / `cluster.shutdown()` tear the connection down at the
end. -/

/-- A resource event: a file handle or the cluster connection is opened or
closed. -/
inductive ResourceEvent where
  | openFile
  | closeFile
  | openConn
  | closeConn
  deriving DecidableEq, Repr

open ResourceEvent in
/-- The resource trace of the pipeline, given the list of event CSV files
found by the directory scan. -/
def pipelineTrace (eventFiles : List String) : List ResourceEvent :=
  (eventFiles.flatMap (fun _ => [openFile, closeFile])) ++
  ([openFile, closeFile] ++
   [openFile, closeFile] ++
   [openConn] ++
   [openFile, closeFile] ++
   [openFile, closeFile] ++
   [openFile, closeFile] ++
   [closeConn])

/-- Open-handle counters `(files, connections)` after one event. -/
def resStep : Nat × Nat → ResourceEvent → Nat × Nat
  | (f, c), ResourceEvent.openFile => (f + 1, c)
  | (f, c), ResourceEvent.closeFile => (f - 1, c)
  | (f, c), ResourceEvent.openConn => (f, c + 1)
  | (f, c), ResourceEvent.closeConn => (f, c - 1)

/-- Starting from the counters `s`, every state reached along the trace has
at most one open file and at most one open connection. -/
def boundedFrom : Nat × Nat → List ResourceEvent → Bool
  | _, [] => true
  | s, e :: tr =>
    let s2 := resStep s e
    decide (s2.1 ≤ 1) && decide (s2.2 ≤ 1) && boundedFrom s2 tr

lemma pipelineTrace_cons (f : String) (fs : List String) :
    pipelineTrace (f :: fs) =
      ResourceEvent.openFile :: ResourceEvent.closeFile :: pipelineTrace fs := by
  simp [pipelineTrace]

/-! ## Claim theorems -/

lemma writeRows_filter_project (rows : List (List String))
    (hlen : ∀ r ∈ rows, 17 ≤ r.length) :
    writeRows rows =
      some ((rows.filter (fun r => r.getD 0 "" != "")).map projectRowD) := by
  induction rows with
  | nil => rfl
  | cons row rest ih =>
    have h17 : 17 ≤ row.length := hlen row (by simp)
    have h0 : 0 < row.length := by omega
    have hget : row[0]? = some row[0] := List.getElem?_eq_getElem h0
    have hgetD : row.getD 0 "" = row[0] := by
      rw [List.getD_eq_getElem?_getD, hget]
      rfl
    have htail : writeRows rest =
        some ((rest.filter (fun r => r.getD 0 "" != "")).map projectRowD) :=
      ih (fun r hr => hlen r (List.mem_cons_of_mem _ hr))
    by_cases hempty : row[0] = ""
    · rw [show writeRows (row :: rest) = writeRows rest from by
        simp [writeRows, hget, hempty]]
      rw [htail, List.filter_cons_of_neg (by simp [List.getD_eq_getElem?_getD, hget, hempty])]
    · rw [show writeRows (row :: rest) = do
          let proj ← projectRow row
          let tail ← writeRows rest
          pure (proj :: tail) from by simp [writeRows, hget, hempty]]
      rw [projectRow_of_long h17, htail,
        List.filter_cons_of_pos (by simp [List.getD_eq_getElem?_getD, hget, hempty])]
      rfl

/-- C1: the extract phase is a filter-and-project pass.  For input event rows
of at least 17 fields each, the file written is exactly the fixed header row
followed by, in input order, the 11-field projection of precisely those rows
whose field 0 (artist) is non-empty. -/
theorem extract_is_filter_project (rows : List (List String))
    (hlen : ∀ r ∈ rows, 17 ≤ r.length) :
    newDatafile rows =
      some (csvHeader ::
        (rows.filter (fun r => r.getD 0 "" != "")).map projectRowD) := by
  rw [newDatafile, writeRows_filter_project rows hlen]
  rfl

/-- Sample event rows for the extract witness: a 17-field row with a
non-empty artist, a 17-field row whose artist field is empty, and another
kept row. -/
def sampleEventRows : List (List String) :=
  [["Artist A", "ts", "Amy", "F", "0", "Cole", "211.1", "free", "LA", "m",
    "PUT", "200", "77", "Song A", "s", "ua", "5"],
   ["", "ts", "Amy", "F", "1", "Cole", "", "free", "LA", "m",
    "PUT", "200", "77", "", "s", "ua", "5"],
   ["Artist B", "ts", "Bob", "M", "2", "Day", "95.0", "paid", "NY", "m",
    "PUT", "200", "78", "Song B", "s", "ub", "6"]]

/-- Witness for C1 at a concrete input: the middle row (empty artist) is
dropped and the two kept rows are projected in order. -/
theorem extract_is_filter_project_witness :
    (∀ r ∈ sampleEventRows, 17 ≤ r.length) ∧
    newDatafile sampleEventRows =
      some (csvHeader ::
        (sampleEventRows.filter (fun r => r.getD 0 "" != "")).map
          projectRowD) :=
  ⟨by decide, extract_is_filter_project sampleEventRows (by decide)⟩

/-- C2: each of the three fixed queries is a direct equality lookup: a tuple
is in the result exactly when some stored row matches the WHERE constants and
the tuple is the projection of that row to the selected columns — no join, no
aggregation, and every output value is a stored column of the matching row. -/
theorem queries_are_equality_lookups :
    (∀ (t : List ArtistSongSessionRow) (x : String × String × PyFloat),
      x ∈ selectQuery1 t ↔
        ∃ r ∈ t, r.session_id = 338 ∧ r.item_in_session = 4 ∧
          x = (r.artist, r.song, r.length)) ∧
    (∀ (t : List SongPlaylistSessionRow)
        (x : String × String × Int × String × String),
      x ∈ selectQuery2 t ↔
        ∃ r ∈ t, r.user_id = 10 ∧ r.session_id = 182 ∧
          x = (r.artist, r.song, r.item_in_session, r.first_name,
               r.last_name)) ∧
    (∀ (t : List UserSongRow) (x : String × String),
      x ∈ selectQuery3 t ↔
        ∃ r ∈ t, r.song = "All Hands Against His Own" ∧
          x = (r.first_name, r.last_name)) := by
  refine ⟨fun t x => ?_, fun t x => ?_, fun t x => ?_⟩
  · simp only [selectQuery1, List.mem_map, List.mem_filter, Bool.and_eq_true,
      beq_iff_eq]
    constructor
    · rintro ⟨r, ⟨hr, h1, h2⟩, rfl⟩
      exact ⟨r, hr, h1, h2, rfl⟩
    · rintro ⟨r, hr, h1, h2, rfl⟩
      exact ⟨r, ⟨hr, h1, h2⟩, rfl⟩
  · simp only [selectQuery2, List.mem_map, List.mem_filter, Bool.and_eq_true,
      beq_iff_eq]
    constructor
    · rintro ⟨r, ⟨hr, h1, h2⟩, rfl⟩
      exact ⟨r, hr, h1, h2, rfl⟩
    · rintro ⟨r, hr, h1, h2, rfl⟩
      exact ⟨r, ⟨hr, h1, h2⟩, rfl⟩
  · simp only [selectQuery3, List.mem_map, List.mem_filter, beq_iff_eq]
    constructor
    · rintro ⟨r, ⟨hr, h1⟩, rfl⟩
      exact ⟨r, hr, h1, rfl⟩
    · rintro ⟨r, hr, h1, rfl⟩
      exact ⟨r, ⟨hr, h1⟩, rfl⟩

lemma mapM_isSome_length {α β : Type} (f : α → Option β) :
    ∀ l : List α, (∀ a ∈ l, (f a).isSome) →
      ∃ l2, l.mapM f = some l2 ∧ l2.length = l.length := by
  intro l
  induction l with
  | nil => exact fun _ => ⟨[], rfl, rfl⟩
  | cons a l ih =>
    intro h
    obtain ⟨b, hb⟩ := Option.isSome_iff_exists.mp (h a (by simp))
    obtain ⟨l2, hl2, hlen⟩ := ih (fun x hx => h x (by simp [hx]))
    refine ⟨b :: l2, ?_, by simp [hlen]⟩
    rw [List.mapM_cons, hb, hl2]
    rfl

/-- C3: for a flat file of one header line followed by records, each insert
loop drops exactly the header and issues exactly one execute call per record,
provided every record converts (as the records of the generated flat file
do). -/
theorem load_one_insert_per_record
    (header : List String) (records : List (List String))
    (hA : ∀ r ∈ records, (parseArtistSongSession r).isSome)
    (hS : ∀ r ∈ records, (parseSongPlaylistSession r).isSome)
    (hU : ∀ r ∈ records, (parseUserSong r).isSome) :
    (∃ calls, insertLoopCalls parseArtistSongSession (header :: records) =
        some calls ∧ calls.length = records.length) ∧
    (∃ calls, insertLoopCalls parseSongPlaylistSession (header :: records) =
        some calls ∧ calls.length = records.length) ∧
    (∃ calls, insertLoopCalls parseUserSong (header :: records) =
        some calls ∧ calls.length = records.length) :=
  ⟨mapM_isSome_length _ records hA, mapM_isSome_length _ records hS,
   mapM_isSome_length _ records hU⟩

/-- Two well-formed records of the flat file (11 fields; integer
`itemInSession`, `sessionId`, `userId`; decimal `length`). -/
def sampleFlatRecords : List (List String) :=
  [["Faithless", "Sylvie", "F", "4", "Cruz", "495.3073", "free", "LA",
    "338", "Music Matters", "10"],
   ["Three Drives", "Sylvie", "F", "1", "Cruz", "411.6", "free", "LA",
    "182", "Greece 2000", "10"]]

/-- Witness for C3 at a concrete flat file of two records. -/
theorem load_one_insert_per_record_witness :
    (∀ r ∈ sampleFlatRecords, (parseArtistSongSession r).isSome) ∧
    (∀ r ∈ sampleFlatRecords, (parseSongPlaylistSession r).isSome) ∧
    (∀ r ∈ sampleFlatRecords, (parseUserSong r).isSome) ∧
    ((∃ calls, insertLoopCalls parseArtistSongSession
        (csvHeader :: sampleFlatRecords) = some calls ∧
        calls.length = sampleFlatRecords.length) ∧
     (∃ calls, insertLoopCalls parseSongPlaylistSession
        (csvHeader :: sampleFlatRecords) = some calls ∧
        calls.length = sampleFlatRecords.length) ∧
     (∃ calls, insertLoopCalls parseUserSong
        (csvHeader :: sampleFlatRecords) = some calls ∧
        calls.length = sampleFlatRecords.length)) :=
  ⟨by decide, by decide, by decide,
   load_one_insert_per_record csvHeader sampleFlatRecords
     (by decide) (by decide) (by decide)⟩

set_option maxRecDepth 4000 in
/-- C4: the transform phase executes exactly three `CREATE TABLE` statements,
and each is the rendering of the table shape the claim lists (columns, types,
partition key, clustering key). -/
theorem transform_creates_three_listed_tables :
    createTableStatements.length = 3 ∧
    createTableStatements =
      [renderCreateTable artistSongSessionSchema,
       renderCreateTable songPlaylistSessionSchema,
       renderCreateTable userSongSchema] := by
  constructor
  · rfl
  · decide

lemma pairwise_filter_strengthen {α : Type} {R S : α → α → Prop}
    {p : α → Bool} {l : List α} (h : l.Pairwise R)
    (imp : ∀ a b, p a = true → p b = true → R a b → S a b) :
    (l.filter p).Pairwise S := by
  induction l with
  | nil => simp
  | cons x xs ih =>
    rw [List.pairwise_cons] at h
    by_cases hx : p x = true
    · rw [List.filter_cons_of_pos hx, List.pairwise_cons]
      refine ⟨?_, ih h.2⟩
      intro y hy
      exact imp x y hx (List.of_mem_filter hy)
        (h.1 y (List.mem_of_mem_filter hy))
    · rw [List.filter_cons_of_neg (by simpa using hx)]
      exact ih h.2

/-- C5: rows sharing the partition key come back in clustering order.  For
any loaded `song_playlist_session` state, the tuples printed by query 2
(`user_id=10 and session_id=182`) are strictly increasing in
`item_in_session` (the third printed column). -/
theorem query2_sorted_by_item_in_session (rs : List SongPlaylistSessionRow) :
    (selectQuery2 (loadRows keySongPlaylistSession [] rs)).Pairwise
      (fun a b => a.2.2.1 < b.2.2.1) := by
  rw [selectQuery2, List.pairwise_map]
  refine pairwise_filter_strengthen
    (sortedT_loadRows keySongPlaylistSession rs
      (sortedT_nil keySongPlaylistSession)) ?_
  intro a b ha hb hR
  simp only [Bool.and_eq_true, beq_iff_eq] at ha hb
  simp only [keySongPlaylistSession] at hR
  obtain ⟨ha1, ha2⟩ := ha
  obtain ⟨hb1, hb2⟩ := hb
  rcases (Prod.Lex.lt_iff _ _).mp hR with h | h
  · rcases (Prod.Lex.lt_iff _ _).mp h with h2 | h2
    · omega
    · obtain ⟨-, h2⟩ := h2
      omega
  · exact h.2

/-- C9: the load phase is idempotent.  Re-running an insert loop over the
records of the same flat file maps each record to the same primary key as the
first run and overwrites that row with identical values, so all three table
states are unchanged. -/
theorem load_idempotent (file : List (List String)) :
    ((insertLoopCalls parseArtistSongSession file).map
        (fun rs => loadRows keyArtistSongSession
          (loadRows keyArtistSongSession [] rs) rs) =
      tableArtistSongSession file) ∧
    ((insertLoopCalls parseSongPlaylistSession file).map
        (fun rs => loadRows keySongPlaylistSession
          (loadRows keySongPlaylistSession [] rs) rs) =
      tableSongPlaylistSession file) ∧
    ((insertLoopCalls parseUserSong file).map
        (fun rs => loadRows keyUserSong
          (loadRows keyUserSong [] rs) rs) =
      tableUserSong file) := by
  refine ⟨?_, ?_, ?_⟩
  · rw [tableArtistSongSession]
    cases insertLoopCalls parseArtistSongSession file <;>
      simp [loadRows_idem]
  · rw [tableSongPlaylistSession]
    cases insertLoopCalls parseSongPlaylistSession file <;>
      simp [loadRows_idem]
  · rw [tableUserSong]
    cases insertLoopCalls parseUserSong file <;>
      simp [loadRows_idem]

/-- C10: after any sequence of inserts the `user_song` table holds at most
one row per `(song, user_id)` pair; a stored row is exactly the last inserted
record with its `(song, user_id)` key (so repeated plays keep the last name
fields); and the rows matching any fixed song title have pairwise distinct
`user_id` values. -/
theorem user_song_unique_per_song_user (rs : List UserSongRow) :
    (loadRows keyUserSong [] rs).Pairwise
      (fun a b => a.song ≠ b.song ∨ a.user_id ≠ b.user_id) ∧
    (∀ r : UserSongRow, r ∈ loadRows keyUserSong [] rs ↔
      lastKeyed keyUserSong (keyUserSong r) rs = some r) ∧
    (∀ s : String,
      ((loadRows keyUserSong [] rs).filter
        (fun r => r.song == s)).Pairwise
          (fun a b => a.user_id ≠ b.user_id)) := by
  have hs : SortedT keyUserSong (loadRows keyUserSong [] rs) :=
    sortedT_loadRows keyUserSong rs (sortedT_nil keyUserSong)
  refine ⟨?_, ?_, ?_⟩
  · refine hs.imp ?_
    intro a b hab
    by_contra hcon
    push_neg at hcon
    have hkey : keyUserSong a = keyUserSong b := by
      simp [keyUserSong, hcon.1, hcon.2]
    exact absurd (hkey ▸ hab) (lt_irrefl (keyUserSong b))
  · intro r
    rw [mem_iff_findKey keyUserSong hs, findKey_loadRows, findKey_nil]
    cases lastKeyed keyUserSong (keyUserSong r) rs <;> simp
  · intro s
    refine pairwise_filter_strengthen hs ?_
    intro a b ha hb hR
    simp only [beq_iff_eq] at ha hb
    simp only [keyUserSong] at hR
    rcases (Prod.Lex.lt_iff _ _).mp hR with h | h
    · rw [ha, hb] at h
      exact absurd h (lt_irrefl s)
    · exact ne_of_lt h.2

/-- C7: along the whole pipeline at most one file handle and at most one
database connection are open at any time, and both are closed at the end. -/
theorem single_connection_single_file (eventFiles : List String) :
    boundedFrom (0, 0) (pipelineTrace eventFiles) = true ∧
    (pipelineTrace eventFiles).foldl resStep (0, 0) = (0, 0) := by
  induction eventFiles with
  | nil => exact ⟨by decide, by decide⟩
  | cons f fs ih =>
    rw [pipelineTrace_cons]
    refine ⟨?_, ?_⟩
    · simp only [boundedFrom, resStep]
      simpa using ih.1
    · simpa [List.foldl_cons, resStep] using ih.2

/-- Occurrence of a character sequence inside another. -/
def containsSeq (pat : List Char) : List Char → Bool
  | [] => pat.isEmpty
  | c :: rest => pat.isPrefixOf (c :: rest) || containsSeq pat rest

/-- Occurrence of `pat` as a substring of `s`. -/
def containsText (s pat : String) : Bool :=
  containsSeq pat.toList s.toList

/-- C6 fails on the code: each of the three SELECT statements is executed by
`session.execute(query)` with no parameter tuple, so none of the WHERE
comparison values is passed to the client as a bound parameter. -/
theorem select_params_not_bound :
    ¬ (paramBound selectCall1 ["338", "4"] ∧
       paramBound selectCall2 ["10", "182"] ∧
       paramBound selectCall3 ["All Hands Against His Own"]) := by
  intro h
  have h338 := h.1 "338" (by simp)
  simp [selectCall1, paramBound] at h338

/-- C6 amended: the WHERE comparison values of the three SELECT statements
are inline literals of the statement text, and each SELECT execute call
passes an empty parameter list. -/
theorem select_literals_inline :
    selectCall1.params = [] ∧ selectCall2.params = [] ∧
    selectCall3.params = [] ∧
    containsText selectCall1.query "session_id=338" = true ∧
    containsText selectCall1.query "item_in_session=4" = true ∧
    containsText selectCall2.query "user_id=10" = true ∧
    containsText selectCall2.query "session_id=182" = true ∧
    containsText selectCall3.query
      "song=\x27All Hands Against His Own\x27" = true := by
  refine ⟨rfl, rfl, rfl, ?_, ?_, ?_, ?_, ?_⟩ <;> decide

lemma parseQuestion2_eq (row : List String) :
    parseQuestion2 row = parseSongPlaylistSession row := by
  unfold parseQuestion2 parseSongPlaylistSession
  cases h0 : row[0]? with
  | none => simp [*]
  | some ar =>
  cases h9 : row[9]? with
  | none => simp [*]
  | some so =>
  cases h8 : row[8]? with
  | none => simp [*]
  | some s8 =>
  cases hp8 : pyInt s8 with
  | none => simp [*]
  | some sid =>
  cases h3 : row[3]? with
  | none => simp [*]
  | some s3 =>
  cases hp3 : pyInt s3 with
  | none => simp [*]
  | some iis =>
  cases h10 : row[10]? with
  | none => simp [*]
  | some s10 =>
  cases hp10 : pyInt s10 with
  | none => simp [*]
  | some uid =>
  cases h1 : row[1]? with
  | none => simp [*]
  | some fn =>
  cases h4 : row[4]? with
  | none => simp [*]
  | some ln => simp [*]

lemma keyQuestion2_eq_iff (a b : SongPlaylistSessionRow) :
    keyQuestion2 a = keyQuestion2 b ↔
      keySongPlaylistSession a = keySongPlaylistSession b := by
  simp only [keyQuestion2, keySongPlaylistSession, toLex_inj, Prod.mk.injEq]
  tauto

lemma mem_loadQuestion2_iff (rs : List SongPlaylistSessionRow)
    (r : SongPlaylistSessionRow) :
    r ∈ loadRows keyQuestion2 [] rs ↔
      r ∈ loadRows keySongPlaylistSession [] rs := by
  rw [mem_iff_findKey keyQuestion2
      (sortedT_loadRows keyQuestion2 rs (sortedT_nil keyQuestion2)),
    mem_iff_findKey keySongPlaylistSession
      (sortedT_loadRows keySongPlaylistSession rs
        (sortedT_nil keySongPlaylistSession)),
    findKey_loadRows, findKey_loadRows, findKey_nil, findKey_nil]
  have hfilters :
      rs.filter (fun x => decide (keyQuestion2 x = keyQuestion2 r)) =
        rs.filter (fun x =>
          decide (keySongPlaylistSession x = keySongPlaylistSession r)) := by
    apply List.filter_congr
    intro x _
    rw [decide_eq_decide]
    exact keyQuestion2_eq_iff x r
  rw [lastKeyed, lastKeyed, hfilters]

lemma filter_q2_sorted_sps (rs : List SongPlaylistSessionRow) :
    ((loadRows keySongPlaylistSession [] rs).filter
      (fun r => r.user_id == 10 && r.session_id == 182)).Pairwise
      (fun a b => a.item_in_session < b.item_in_session) := by
  refine pairwise_filter_strengthen
    (sortedT_loadRows keySongPlaylistSession rs
      (sortedT_nil keySongPlaylistSession)) ?_
  intro a b ha hb hR
  simp only [Bool.and_eq_true, beq_iff_eq] at ha hb
  obtain ⟨ha1, ha2⟩ := ha
  obtain ⟨hb1, hb2⟩ := hb
  simp only [keySongPlaylistSession] at hR
  rcases (Prod.Lex.lt_iff _ _).mp hR with h | h
  · rcases (Prod.Lex.lt_iff _ _).mp h with h2 | h2
    · omega
    · obtain ⟨-, h2⟩ := h2
      omega
  · exact h.2

lemma filter_q2_sorted_question2 (rs : List SongPlaylistSessionRow) :
    ((loadRows keyQuestion2 [] rs).filter
      (fun r => r.user_id == 10 && r.session_id == 182)).Pairwise
      (fun a b => a.item_in_session < b.item_in_session) := by
  refine pairwise_filter_strengthen
    (sortedT_loadRows keyQuestion2 rs (sortedT_nil keyQuestion2)) ?_
  intro a b ha hb hR
  simp only [Bool.and_eq_true, beq_iff_eq] at ha hb
  obtain ⟨ha1, ha2⟩ := ha
  obtain ⟨hb1, hb2⟩ := hb
  simp only [keyQuestion2] at hR
  rcases (Prod.Lex.lt_iff _ _).mp hR with h | h
  · omega
  · rcases (Prod.Lex.lt_iff _ _).mp h.2 with h2 | h2
    · omega
    · exact h2.2

lemma selectQuestion2_loadRows_eq (rs : List SongPlaylistSessionRow) :
    selectQuestion2 (loadRows keyQuestion2 [] rs) =
      selectQuery2 (loadRows keySongPlaylistSession [] rs) := by
  rw [selectQuestion2, selectQuery2]
  have hfeq :
      (loadRows keyQuestion2 [] rs).filter
        (fun r => r.user_id == 10 && r.session_id == 182) =
      (loadRows keySongPlaylistSession [] rs).filter
        (fun r => r.user_id == 10 && r.session_id == 182) := by
    refine sorted_mem_ext (fun r : SongPlaylistSessionRow => r.item_in_session)
      (filter_q2_sorted_question2 rs) (filter_q2_sorted_sps rs) ?_
    intro x
    simp only [List.mem_filter]
    rw [mem_loadQuestion2_iff rs x]
  rw [hfeq]

/-- C8: the two notebook revisions are observationally equivalent for
query 2: for every flat file, loading `question_2` (partition key `user_id`,
clustering `session_id, item_in_session`) and selecting
`user_id=10 and session_id=182` prints the same
(artist, song, item_in_session, first name, last name) tuples, in the same
`item_in_session` order, as loading `song_playlist_session` (partition key
`(user_id, session_id)`, clustering `item_in_session`) and running its
query 2. -/
theorem question2_song_playlist_equivalent (file : List (List String)) :
    (tableQuestion2 file).map selectQuestion2 =
      (tableSongPlaylistSession file).map selectQuery2 := by
  rw [tableQuestion2, tableSongPlaylistSession,
    show insertLoopCalls parseQuestion2 file =
        insertLoopCalls parseSongPlaylistSession file by
      rw [show parseQuestion2 = parseSongPlaylistSession from
        funext parseQuestion2_eq]]
  cases insertLoopCalls parseSongPlaylistSession file with
  | none => rfl
  | some rs => simp [selectQuestion2_loadRows_eq rs]

end DataModelingCassandra
